import Mathlib

/-!
Verification of the `@percytech/shared-database` data-access layer.

This file gives a shallow embedding of the brand-aware Supabase client
wrapper (`client/supabase.ts`), the customer operations
(`utils/customer-ops.ts`) and the conversation operations
(`utils/conversation-ops.ts`), over an explicit in-memory model of the
hosted Postgres store described by `schemas/tables.sql`.  Each operation
is translated directly from the TypeScript source: the hosted store is
modelled as three row lists, PostgREST's single-object semantics
(`.single()`) by `single`, and other store failures by an injectable
fault parameter on the read paths that inspect error codes.
-/

namespace PercyDB

/-- Brand context passed to the brand-aware client (`types/brand.ts`,
`BrandContext`); the brand configuration record is irrelevant to the
operations modelled here and is elided. -/
structure BrandContext where
  brand_id : String
  user_id : Option String := none
  is_admin : Bool := false
deriving Repr, DecidableEq

/-- A row of the `customers` table (`Database` interface in
`client/supabase.ts`; `tables.sql`).  JSONB metadata is modelled as an
opaque optional string, since no operation inspects it. -/
structure CustomerRow where
  id : String
  brand_id : String
  email : String
  phone : Option String := none
  first_name : Option String := none
  last_name : Option String := none
  stage : String
  source : String
  is_active : Bool
  marketing_qualified_at : Option String := none
  trial_started_at : Option String := none
  subscribed_at : Option String := none
  churned_at : Option String := none
  metadata : Option String := none
  tags : Option (List String) := none
  created_at : String
  updated_at : String
  created_by : Option String := none
deriving Repr, DecidableEq

/-- A row of the `conversations` table. -/
structure ConversationRow where
  id : String
  brand_id : String
  customer_id : String
  customer_phone : String
  brand_phone : String
  status : String
  campaign_id : Option String := none
  campaign_name : Option String := none
  message_count : Nat
  last_message_at : Option String := none
  last_inbound_at : Option String := none
  last_outbound_at : Option String := none
  opted_out_at : Option String := none
  opt_out_reason : Option String := none
  metadata : Option String := none
  tags : Option (List String) := none
  created_at : String
  updated_at : String
deriving Repr, DecidableEq

/-- A row of the `messages` table. -/
structure MessageRow where
  id : String
  conversation_id : String
  direction : String
  content : String
  media_urls : Option (List String) := none
  status : Option String := none
  external_id : Option String := none
  metadata : Option String := none
  sent_at : String
  delivered_at : Option String := none
  created_at : String
deriving Repr, DecidableEq

/-- The hosted store: the three tables of `tables.sql`. -/
structure DB where
  customers : List CustomerRow
  conversations : List ConversationRow
  messages : List MessageRow
deriving Repr, DecidableEq

/-- An error object returned by the hosted store (PostgREST shape:
`error.code`, `error.message`). -/
structure StoreError where
  code : String
  message : String
deriving Repr, DecidableEq

/-- PostgREST `.single()` semantics: succeeds on exactly one row,
otherwise reports error code `PGRST116` ("JSON object requested,
multiple (or no) rows returned"). -/
def single {α : Type} (rows : List α) : Except StoreError α :=
  match rows with
  | [r] => .ok r
  | _ => .error { code := "PGRST116", message := "multiple (or no) rows returned" }

/-- The hosted store's response to a single-row request: either an
injected non-not-found store failure (network error, malformed filter,
...) or the `.single()` semantics on the matching rows. -/
def runSingle {α : Type} (rows : List α) (fault : Option String) : Except StoreError α :=
  match fault with
  | some msg => .error { code := "STORE", message := msg }
  | none => single rows

/-- The shared error-translation pattern of the single-row lookups: a
`PGRST116` error becomes a null result, every other error is re-thrown
wrapped with the operation's message prefix. -/
def singleOrNull {α : Type} (rows : List α) (fault : Option String)
    (errPrefix : String) : Except String (Option α) :=
  match runSingle rows fault with
  | .ok c => .ok (some c)
  | .error e =>
    if e.code == "PGRST116" then .ok none
    else .error (errPrefix ++ e.message)

/-- Bool-valued `Pairwise`: `R` holds between every earlier and every
later element of the list. -/
def pairwiseB {α : Type} (R : α → α → Bool) : List α → Bool
  | [] => true
  | x :: xs => xs.all (R x) && pairwiseB R xs

/-- `customers` primary key: two rows never share an `id`. -/
def custPkDistinct (a b : CustomerRow) : Bool := !(a.id == b.id)

/-- `customers_brand_email_unique`: no two rows share `(brand_id, email)`. -/
def custEmailDistinct (a b : CustomerRow) : Bool :=
  !(a.brand_id == b.brand_id && a.email == b.email)

/-- `customers_brand_phone_unique`: no two rows share `(brand_id, phone)`
with a non-null phone (SQL UNIQUE ignores NULLs). -/
def custPhoneDistinct (a b : CustomerRow) : Bool :=
  !(a.brand_id == b.brand_id && a.phone == b.phone && a.phone.isSome)

/-- `conversations` primary key. -/
def convPkDistinct (a b : ConversationRow) : Bool := !(a.id == b.id)

/-- `conversations_brand_phones_unique`: no two rows share
`(brand_id, customer_phone, brand_phone)`. -/
def convPhonesDistinct (a b : ConversationRow) : Bool :=
  !(a.brand_id == b.brand_id && a.customer_phone == b.customer_phone
    && a.brand_phone == b.brand_phone)

/-- The store state satisfies the schema's uniqueness constraints
(`tables.sql`). -/
def dbConstraints (db : DB) : Bool :=
  pairwiseB custPkDistinct db.customers
  && pairwiseB custEmailDistinct db.customers
  && pairwiseB custPhoneDistinct db.customers
  && pairwiseB convPkDistinct db.conversations
  && pairwiseB convPhonesDistinct db.conversations

/-- The store's insert into `conversations`: enforces the
`conversations_brand_phones_unique` constraint and the foreign key to
`customers` (`tables.sql`). -/
def insertConversation (db : DB) (row : ConversationRow) : Except StoreError DB :=
  if db.conversations.any (fun c =>
      c.brand_id == row.brand_id && c.customer_phone == row.customer_phone
      && c.brand_phone == row.brand_phone) then
    .error { code := "23505",
             message := "duplicate key value violates unique constraint \"conversations_brand_phones_unique\"" }
  else if db.customers.any (fun c => c.id == row.customer_id) then
    .ok { db with conversations := db.conversations ++ [row] }
  else
    .error { code := "23503",
             message := "insert or update on table \"conversations\" violates foreign key constraint" }

/-- The store's insert into `messages`: enforces the foreign key
`conversation_id REFERENCES conversations(id)`; note there is no brand
column on `messages`. -/
def insertMessage (db : DB) (row : MessageRow) : Except StoreError DB :=
  if db.conversations.any (fun c => c.id == row.conversation_id) then
    .ok { db with messages := db.messages ++ [row] }
  else
    .error { code := "23503",
             message := "insert or update on table \"messages\" violates foreign key constraint" }

/-- `BrandAwareSupabase.customers`: `from('customers').select('*')
.eq('brand_id', this.brandContext.brand_id)`. -/
def BrandAwareSupabase.customers (ctx : BrandContext) (db : DB) : List CustomerRow :=
  db.customers.filter (fun c => c.brand_id == ctx.brand_id)

/-- `BrandAwareSupabase.conversations`: the brand-filtered starting
point over the `conversations` table. -/
def BrandAwareSupabase.conversations (ctx : BrandContext) (db : DB) : List ConversationRow :=
  db.conversations.filter (fun c => c.brand_id == ctx.brand_id)

/-- The connection handle produced by `createClient` (url, anon key). -/
structure SupabaseClient where
  url : String
  anonKey : String
deriving Repr, DecidableEq

/-- The relevant process environment variables. -/
structure Env where
  NEXT_PUBLIC_SUPABASE_URL : Option String := none
  NEXT_PUBLIC_SUPABASE_ANON_KEY : Option String := none
deriving Repr, DecidableEq

/-- JavaScript truthiness of an optional string: `undefined` and the
empty string are falsy. -/
def truthy : Option String → Bool
  | none => false
  | some s => !(s == "")

/-- JavaScript `a || b` on optional strings. -/
def jsOr (a b : Option String) : Option String :=
  if truthy a then a else b

/-- `createSupabaseClient(url?, anonKey?)`: returns the process-wide
singleton when present; otherwise resolves url/key from the explicit
override or the environment, throwing `Missing Supabase configuration`
when either resolves falsy, and otherwise creating (and memoising) the
client.  Result: the returned client and the new singleton state. -/
def createSupabaseClient (singleton : Option SupabaseClient)
    (url anonKey : Option String) (env : Env) :
    Except String (SupabaseClient × Option SupabaseClient) :=
  match singleton with
  | some c => .ok (c, some c)
  | none =>
    let supabaseUrl := jsOr url env.NEXT_PUBLIC_SUPABASE_URL
    let supabaseAnonKey := jsOr anonKey env.NEXT_PUBLIC_SUPABASE_ANON_KEY
    if !truthy supabaseUrl || !truthy supabaseAnonKey then
      .error "Missing Supabase configuration"
    else
      let c : SupabaseClient :=
        { url := supabaseUrl.getD "", anonKey := supabaseAnonKey.getD "" }
      .ok (c, some c)

/-- `UpdateCustomer` (`types/customer.ts`): every updatable field
optional; an absent field leaves the column unchanged. -/
structure UpdateCustomer where
  email : Option String := none
  phone : Option String := none
  first_name : Option String := none
  last_name : Option String := none
  stage : Option String := none
  is_active : Option Bool := none
  marketing_qualified_at : Option String := none
  trial_started_at : Option String := none
  subscribed_at : Option String := none
  churned_at : Option String := none
  metadata : Option String := none
  tags : Option (List String) := none
deriving Repr, DecidableEq

/-- A present update field overwrites the stored optional column. -/
def setOpt {α : Type} (u old : Option α) : Option α :=
  match u with
  | some v => some v
  | none => old

/-- Effect of `update(updateData)` with `updated_at` re-stamped to the
call time (`{...data, updated_at: now}` in `CustomerOperations.update`). -/
def applyUpdate (c : CustomerRow) (u : UpdateCustomer) (now : String) : CustomerRow :=
  { c with
    email := u.email.getD c.email
    phone := setOpt u.phone c.phone
    first_name := setOpt u.first_name c.first_name
    last_name := setOpt u.last_name c.last_name
    stage := u.stage.getD c.stage
    is_active := u.is_active.getD c.is_active
    marketing_qualified_at := setOpt u.marketing_qualified_at c.marketing_qualified_at
    trial_started_at := setOpt u.trial_started_at c.trial_started_at
    subscribed_at := setOpt u.subscribed_at c.subscribed_at
    churned_at := setOpt u.churned_at c.churned_at
    metadata := setOpt u.metadata c.metadata
    tags := setOpt u.tags c.tags
    updated_at := now }

/-- `CustomerOperations.getById`: brand-filtered lookup by `id`,
`.single()`, null on `PGRST116`, wrapped throw otherwise. -/
def CustomerOperations.getById (ctx : BrandContext) (db : DB) (id : String)
    (fault : Option String) : Except String (Option CustomerRow) :=
  singleOrNull ((BrandAwareSupabase.customers ctx db).filter (fun c => c.id == id))
    fault "Failed to get customer: "

/-- `CustomerOperations.getByEmail`. -/
def CustomerOperations.getByEmail (ctx : BrandContext) (db : DB) (email : String)
    (fault : Option String) : Except String (Option CustomerRow) :=
  singleOrNull ((BrandAwareSupabase.customers ctx db).filter (fun c => c.email == email))
    fault "Failed to get customer by email: "

/-- `CustomerOperations.getByPhone`: `eq("phone", phone)` matches only a
non-null phone column equal to the argument. -/
def CustomerOperations.getByPhone (ctx : BrandContext) (db : DB) (phone : String)
    (fault : Option String) : Except String (Option CustomerRow) :=
  singleOrNull ((BrandAwareSupabase.customers ctx db).filter (fun c => c.phone == some phone))
    fault "Failed to get customer by phone: "

/-- `CustomerOperations.update`: raw update filtered by
`.eq("id", id).eq("brand_id", ...)`, then `.select().single()`; every
error (including zero rows updated) is thrown wrapped.  Returns the
updated row and the new store state. -/
def CustomerOperations.update (ctx : BrandContext) (db : DB) (id : String)
    (u : UpdateCustomer) (now : String) (fault : Option String) :
    Except String (CustomerRow × DB) :=
  match runSingle
      ((db.customers.filter (fun c => c.id == id && c.brand_id == ctx.brand_id)).map
        (fun c => applyUpdate c u now)) fault with
  | .error e => .error ("Failed to update customer: " ++ e.message)
  | .ok c =>
    .ok (c, { db with customers := db.customers.map (fun x =>
      if x.id == id && x.brand_id == ctx.brand_id then applyUpdate x u now else x) })

/-- `CustomerOperations.progressStage`: sets the stage and the
stage-specific journey timestamp; on `"churned"` additionally clears
`is_active`. -/
def CustomerOperations.progressStage (ctx : BrandContext) (db : DB) (id : String)
    (newStage : String) (now : String) (fault : Option String) :
    Except String (CustomerRow × DB) :=
  let updateData : UpdateCustomer :=
    match newStage with
    | "marketing" => { stage := some newStage, marketing_qualified_at := some now }
    | "trial" => { stage := some newStage, trial_started_at := some now }
    | "active" => { stage := some newStage, subscribed_at := some now }
    | "churned" => { stage := some newStage, churned_at := some now, is_active := some false }
    | _ => { stage := some newStage }
  CustomerOperations.update ctx db id updateData now fault

/-- `[...new Set(xs)]` in JavaScript: deduplicate keeping the first
occurrence of each element, in order. -/
def jsSetDedup : List String → List String
  | [] => []
  | x :: xs => x :: jsSetDedup (xs.filter (fun y => !(y == x)))
termination_by l => l.length
decreasing_by
  simp only [List.length_cons]
  exact Nat.lt_succ_of_le (List.length_filter_le _ _)

/-- `CustomerOperations.addTags`: read the customer, union the tag sets
in process via a JavaScript `Set`, persist via `update`. -/
def CustomerOperations.addTags (ctx : BrandContext) (db : DB) (id : String)
    (tags : List String) (now : String) : Except String (CustomerRow × DB) :=
  match CustomerOperations.getById ctx db id none with
  | .error e => .error e
  | .ok none => .error "Customer not found"
  | .ok (some customer) =>
    let existingTags := customer.tags.getD []
    let newTags := jsSetDedup (existingTags ++ tags)
    CustomerOperations.update ctx db id { tags := some newTags } now none

/-- Result shape of `CustomerOperations.getAnalytics`; the stage/source
tallies are modelled as counting functions. -/
structure CustomerAnalytics where
  total : Nat
  byStage : String → Nat
  bySource : String → Nat
  conversionRate : ℚ
  avgTimeToConversion : ℚ

/-- `CustomerOperations.getAnalytics`: full brand scan, counts per stage
and source, conversion rate `active/lead × 100` guarded by `leads > 0`;
`avgTimeToConversion` is initialised to 0 and never computed. -/
def CustomerOperations.getAnalytics (ctx : BrandContext) (db : DB) : CustomerAnalytics :=
  let rows := db.customers.filter (fun c => c.brand_id == ctx.brand_id)
  let byStage : String → Nat := fun s => (rows.filter (fun c => c.stage == s)).length
  let bySource : String → Nat := fun s => (rows.filter (fun c => c.source == s)).length
  let leads := byStage "lead"
  let act := byStage "active"
  { total := rows.length
    byStage := byStage
    bySource := bySource
    conversionRate := if leads > 0 then ((act : ℚ) / (leads : ℚ)) * 100 else 0
    avgTimeToConversion := 0 }

/-- `CreateConversation` (`types/conversation.ts`). -/
structure CreateConversation where
  customer_id : String
  customer_phone : String
  brand_phone : String
  campaign_id : Option String := none
  campaign_name : Option String := none
  metadata : Option String := none
  tags : Option (List String) := none
deriving Repr, DecidableEq

/-- `CreateMessage` (`types/conversation.ts`). -/
structure CreateMessage where
  conversation_id : String
  direction : String
  content : String
  media_urls : Option (List String) := none
  external_id : Option String := none
  metadata : Option String := none
deriving Repr, DecidableEq

/-- The optional campaign data accepted by
`ConversationOperations.findOrCreate`. -/
structure CampaignData where
  campaign_id : Option String := none
  campaign_name : Option String := none
deriving Repr, DecidableEq

/-- `ConversationOperations.getById`. -/
def ConversationOperations.getById (ctx : BrandContext) (db : DB) (id : String)
    (fault : Option String) : Except String (Option ConversationRow) :=
  singleOrNull ((BrandAwareSupabase.conversations ctx db).filter (fun c => c.id == id))
    fault "Failed to get conversation: "

/-- `ConversationOperations.getByPhones`: brand-filtered lookup by the
phone pair, additionally restricted to `status = "active"`. -/
def ConversationOperations.getByPhones (ctx : BrandContext) (db : DB)
    (customerPhone brandPhone : String) (fault : Option String) :
    Except String (Option ConversationRow) :=
  singleOrNull ((BrandAwareSupabase.conversations ctx db).filter (fun c =>
      c.customer_phone == customerPhone && c.brand_phone == brandPhone
      && c.status == "active"))
    fault "Failed to get conversation by phones: "

/-- `ConversationOperations.create`: stamps `brand_id` from the context,
defaults `status` to `"active"` and `message_count` to 0; `newId` is the
store-generated row id. -/
def ConversationOperations.create (ctx : BrandContext) (db : DB)
    (data : CreateConversation) (now newId : String) :
    Except String (ConversationRow × DB) :=
  let conversationData : ConversationRow :=
    { id := newId
      brand_id := ctx.brand_id
      customer_id := data.customer_id
      customer_phone := data.customer_phone
      brand_phone := data.brand_phone
      status := "active"
      campaign_id := data.campaign_id
      campaign_name := data.campaign_name
      message_count := 0
      metadata := data.metadata
      tags := data.tags
      created_at := now
      updated_at := now }
  match insertConversation db conversationData with
  | .error e => .error ("Failed to create conversation: " ++ e.message)
  | .ok db1 => .ok (conversationData, db1)

/-- `ConversationOperations.findOrCreate`: look up the active
conversation for the phone pair; return it when found (and active),
otherwise create a fresh conversation. -/
def ConversationOperations.findOrCreate (ctx : BrandContext) (db : DB)
    (customerId customerPhone brandPhone : String)
    (campaignData : Option CampaignData) (now newId : String) :
    Except String (ConversationRow × DB) :=
  match ConversationOperations.getByPhones ctx db customerPhone brandPhone none with
  | .error e => .error e
  | .ok (some existing) =>
    if existing.status == "active" then .ok (existing, db)
    else
      ConversationOperations.create ctx db
        { customer_id := customerId
          customer_phone := customerPhone
          brand_phone := brandPhone
          campaign_id := campaignData.bind (fun cd => cd.campaign_id)
          campaign_name := campaignData.bind (fun cd => cd.campaign_name) }
        now newId
  | .ok none =>
    ConversationOperations.create ctx db
      { customer_id := customerId
        customer_phone := customerPhone
        brand_phone := brandPhone
        campaign_id := campaignData.bind (fun cd => cd.campaign_id)
        campaign_name := campaignData.bind (fun cd => cd.campaign_name) }
      now newId

/-- `ConversationOperations.addMessage`: two sequential writes — (1)
insert the message row (no brand predicate; `sent_at`/`created_at`
default to the call time), (2) update the owning conversation's last
activity timestamps, filtered by `id` and `brand_id`; the update raises
no error when zero rows match, and `message_count` is never touched. -/
def ConversationOperations.addMessage (ctx : BrandContext) (db : DB)
    (data : CreateMessage) (now newId : String) :
    Except String (MessageRow × DB) :=
  let messageData : MessageRow :=
    { id := newId
      conversation_id := data.conversation_id
      direction := data.direction
      content := data.content
      media_urls := data.media_urls
      external_id := data.external_id
      metadata := data.metadata
      sent_at := now
      created_at := now }
  match insertMessage db messageData with
  | .error e => .error ("Failed to create message: " ++ e.message)
  | .ok db1 =>
    let db2 : DB := { db1 with conversations := db1.conversations.map (fun c =>
      if c.id == data.conversation_id && c.brand_id == ctx.brand_id then
        { c with
          last_message_at := some now
          updated_at := now
          last_inbound_at := if data.direction == "inbound" then some now else c.last_inbound_at
          last_outbound_at := if data.direction == "inbound" then c.last_outbound_at else some now }
      else c) }
    .ok (messageData, db2)

/-- Descending insertion by `sent_at` (lexicographic on ISO-8601 UTC
strings, matching timestamp order). -/
def insertBySentAtDesc (m : MessageRow) : List MessageRow → List MessageRow
  | [] => [m]
  | x :: xs =>
    if x.sent_at ≤ m.sent_at then m :: x :: xs
    else x :: insertBySentAtDesc m xs

/-- `order("sent_at", { ascending: false })`. -/
def sortBySentAtDesc : List MessageRow → List MessageRow
  | [] => []
  | x :: xs => insertBySentAtDesc x (sortBySentAtDesc xs)

/-- `ConversationOperations.getMessages`: issued through `raw` with only
a `conversation_id` filter — the bound brand context is not consulted. -/
def ConversationOperations.getMessages (ctx : BrandContext) (db : DB)
    (conversationId : String) (limit : Nat) : Except String (List MessageRow) :=
  let _ := ctx
  .ok ((sortBySentAtDesc (db.messages.filter
    (fun m => m.conversation_id == conversationId))).take limit)

/-- Result shape of `ConversationOperations.getAnalytics`. -/
structure ConversationAnalytics where
  total : Nat
  active : Nat
  optedOut : Nat
  byStatus : String → Nat
  avgMessagesPerConversation : ℚ
  totalMessages : Nat

/-- `ConversationOperations.getAnalytics`: brand-filtered scan
(optionally bounded by `created_at` range), client-side aggregation;
the average guards against an empty scan. -/
def ConversationOperations.getAnalytics (ctx : BrandContext) (db : DB)
    (timeRange : Option (String × String)) : ConversationAnalytics :=
  let base := BrandAwareSupabase.conversations ctx db
  let rows : List ConversationRow := match timeRange with
    | some (s, e) => base.filter (fun c => decide (s ≤ c.created_at) && decide (c.created_at ≤ e))
    | none => base
  let totalMessages : Nat := (rows.map (fun c => c.message_count)).sum
  { total := rows.length
    active := (rows.filter (fun c => c.status == "active")).length
    optedOut := (rows.filter (fun c => c.opted_out_at.isSome)).length
    byStatus := fun s => (rows.filter (fun c => c.status == s)).length
    avgMessagesPerConversation :=
      if rows.length > 0 then (totalMessages : ℚ) / (rows.length : ℚ) else 0
    totalMessages := totalMessages }

/-! ### General lemmas about the store model -/

/-- A store failure on a single-row request is re-thrown wrapped. -/
lemma singleOrNull_fault {α : Type} (rows : List α) (p msg : String) :
    singleOrNull rows (some msg) p = .error (p ++ msg) := rfl

/-- On a fault-free request over at most one matching row, the lookup
returns null exactly when no row matches. -/
lemma singleOrNull_null_iff {α : Type} (rows : List α) (p : String)
    (h : rows.length ≤ 1) : singleOrNull rows none p = .ok none ↔ rows = [] := by
  match rows with
  | [] => simp [singleOrNull, runSingle, single]
  | [r] => simp [singleOrNull, runSingle, single]
  | a :: b :: t => simp at h

/-- A row returned by a single-row lookup is one of the matching rows. -/
lemma singleOrNull_mem {α : Type} (rows : List α) (fault : Option String)
    (p : String) (c : α) (h : singleOrNull rows fault p = .ok (some c)) :
    c ∈ rows := by
  match fault with
  | some msg => rw [singleOrNull_fault] at h; cases h
  | none =>
    match rows with
    | [] => simp [singleOrNull, runSingle, single] at h
    | [r] =>
      simp [singleOrNull, runSingle, single] at h
      simp [h]
    | a :: b :: t => simp [singleOrNull, runSingle, single] at h

/-- A fault-free single-row lookup over exactly one matching row returns
that row. -/
lemma singleOrNull_singleton {α : Type} (r : α) (p : String) :
    singleOrNull [r] none p = .ok (some r) := rfl

/-- Splitting a `pairwiseB` on a cons. -/
lemma pairwiseB_cons {α : Type} (R : α → α → Bool) (x : α) (xs : List α) :
    pairwiseB R (x :: xs) = (xs.all (R x) && pairwiseB R xs) := rfl

/-- If any two elements satisfying `P` must be related by `R = false`,
a `pairwiseB R` list keeps at most one element of `P`. -/
lemma pairwiseB_filter_length_le_one {α : Type} (R : α → α → Bool) (P : α → Bool)
    (hP : ∀ a b, P a = true → P b = true → R a b = false) :
    ∀ l : List α, pairwiseB R l = true → (l.filter P).length ≤ 1 := by
  intro l
  induction l with
  | nil => intro _; simp
  | cons x xs ih =>
    intro h
    rw [pairwiseB_cons, Bool.and_eq_true, List.all_eq_true] at h
    obtain ⟨hall, hrest⟩ := h
    rw [List.filter_cons]
    by_cases hx : P x = true
    · rw [if_pos hx]
      have hnil : xs.filter P = [] := by
        rw [List.eq_nil_iff_forall_not_mem]
        intro y hy
        rw [List.mem_filter] at hy
        have h1 : R x y = true := hall y hy.1
        have h2 : R x y = false := hP x y hx hy.2
        rw [h2] at h1
        exact Bool.false_ne_true h1
      simp [hnil]
    · rw [if_neg hx]
      exact ih hrest

/-- In a `pairwiseB R` list, two members unrelated (in both directions)
by `R` are the same element. -/
lemma pairwiseB_eq_of_mem {α : Type} (R : α → α → Bool) :
    ∀ l : List α, pairwiseB R l = true → ∀ a b, a ∈ l → b ∈ l →
      R a b = false → R b a = false → a = b := by
  intro l
  induction l with
  | nil => intro _ a b ha _ _ _; cases ha
  | cons x xs ih =>
    intro h a b ha hb hab hba
    rw [pairwiseB_cons, Bool.and_eq_true, List.all_eq_true] at h
    obtain ⟨hall, hrest⟩ := h
    rcases List.mem_cons.mp ha with rfl | ha' <;>
      rcases List.mem_cons.mp hb with rfl | hb'
    · rfl
    · have h1 := hall b hb'
      rw [hab] at h1
      exact absurd h1 Bool.false_ne_true
    · have h1 := hall a ha'
      rw [hba] at h1
      exact absurd h1 Bool.false_ne_true
    · exact ih hrest a b ha' hb' hab hba

/-- Pointwise update of the rows hit by `P` commutes with filtering by
`P`, provided the update does not change `P`-membership. -/
lemma filter_map_ite {α : Type} (P : α → Bool) (f : α → α)
    (hf : ∀ x, P (f x) = P x) :
    ∀ l : List α, (l.map (fun x => if P x then f x else x)).filter P
      = (l.filter P).map f := by
  intro l
  induction l with
  | nil => rfl
  | cons x xs ih =>
    by_cases hx : P x = true
    · simp [hx, hf x, ih]
    · have hx' : P x = false := by rwa [Bool.not_eq_true] at hx
      simp [hx', hf x, ih]

/-- Membership in a JavaScript-`Set` deduplication is membership in the
original list. -/
lemma mem_jsSetDedup (y : String) : ∀ l : List String, y ∈ jsSetDedup l ↔ y ∈ l := by
  intro l
  induction l using jsSetDedup.induct with
  | case1 => rw [jsSetDedup]
  | case2 x xs ih =>
    rw [jsSetDedup]
    simp only [List.mem_cons, ih, List.mem_filter]
    constructor
    · rintro (rfl | ⟨h, _⟩)
      · exact Or.inl rfl
      · exact Or.inr h
    · rintro (rfl | h)
      · exact Or.inl rfl
      · by_cases hyx : y = x
        · exact Or.inl hyx
        · exact Or.inr ⟨h, by simp [hyx]⟩

/-- JavaScript-`Set` deduplication yields no duplicates. -/
lemma jsSetDedup_nodup : ∀ l : List String, (jsSetDedup l).Nodup := by
  intro l
  induction l using jsSetDedup.induct with
  | case1 => rw [jsSetDedup]; exact List.nodup_nil
  | case2 x xs ih =>
    rw [jsSetDedup]
    refine List.nodup_cons.mpr ⟨?_, ih⟩
    rw [mem_jsSetDedup, List.mem_filter]
    rintro ⟨_, hx⟩
    simp at hx

/-- A filter over a list that keeps at most one row and provably keeps
`c` keeps exactly `[c]`. -/
lemma filter_eq_singleton_of_mem {α : Type} (l : List α) (P : α → Bool) (c : α)
    (hc : c ∈ l) (hP : P c = true) (hlen : (l.filter P).length ≤ 1) :
    l.filter P = [c] := by
  have hmem : c ∈ l.filter P := List.mem_filter.mpr ⟨hc, hP⟩
  match hfp : l.filter P, hlen with
  | [], _ => rw [hfp] at hmem; cases hmem
  | [x], _ =>
    rw [hfp] at hmem
    rcases List.mem_singleton.mp hmem with rfl
    rfl

/-- The `customers` rows hit by an id-and-brand filter all share the
same id, so the primary key admits at most one of them. -/
lemma cust_hit_le_one (db : DB) (ctx : BrandContext) (id : String)
    (hpk : pairwiseB custPkDistinct db.customers = true) :
    (db.customers.filter (fun x => x.id == id && x.brand_id == ctx.brand_id)).length ≤ 1 := by
  apply pairwiseB_filter_length_le_one custPkDistinct _ _ db.customers hpk
  intro a b ha hb
  rw [Bool.and_eq_true, beq_iff_eq] at ha hb
  unfold custPkDistinct
  rw [ha.1, hb.1]
  simp

/-- `CustomerOperations.update` on a store whose id-and-brand filter
matches exactly one row: the update succeeds, returning the re-stamped
row and rewriting it in place. -/
lemma update_of_filter_eq (ctx : BrandContext) (db : DB) (id : String)
    (u : UpdateCustomer) (now : String) (c : CustomerRow)
    (h : db.customers.filter (fun x => x.id == id && x.brand_id == ctx.brand_id) = [c]) :
    CustomerOperations.update ctx db id u now none
      = .ok (applyUpdate c u now,
             { db with customers := db.customers.map (fun x =>
                 if x.id == id && x.brand_id == ctx.brand_id then applyUpdate x u now else x) }) := by
  unfold CustomerOperations.update
  rw [h]
  rfl

/-- `CustomerOperations.getById` on a store whose id-and-brand filter
matches exactly one row returns that row. -/
lemma getById_of_filter_eq (ctx : BrandContext) (db : DB) (id : String) (c : CustomerRow)
    (h : db.customers.filter (fun x => x.id == id && x.brand_id == ctx.brand_id) = [c]) :
    CustomerOperations.getById ctx db id none = .ok (some c) := by
  unfold CustomerOperations.getById BrandAwareSupabase.customers
  rw [List.filter_filter, h]
  rfl

/-- Inversion for a successful `addMessage`: the returned message is the
inserted row and the new store appends it and re-stamps the brand-owned
conversation's activity timestamps. -/
lemma addMessage_ok_inv (ctx : BrandContext) (db : DB) (data : CreateMessage)
    (now newId : String) (m : MessageRow) (db' : DB)
    (h : ConversationOperations.addMessage ctx db data now newId = .ok (m, db')) :
    m = { id := newId, conversation_id := data.conversation_id
          direction := data.direction, content := data.content
          media_urls := data.media_urls, external_id := data.external_id
          metadata := data.metadata, sent_at := now, created_at := now }
    ∧ db' = { db with
        messages := db.messages ++ [m]
        conversations := db.conversations.map (fun c =>
          if c.id == data.conversation_id && c.brand_id == ctx.brand_id then
            { c with
              last_message_at := some now
              updated_at := now
              last_inbound_at := if data.direction == "inbound" then some now else c.last_inbound_at
              last_outbound_at := if data.direction == "inbound" then c.last_outbound_at else some now }
          else c) } := by
  unfold ConversationOperations.addMessage at h
  simp only [insertMessage] at h
  by_cases hfk : db.conversations.any (fun c => c.id == data.conversation_id) = true
  · rw [if_pos hfk] at h
    simp only [Except.ok.injEq, Prod.mk.injEq] at h
    obtain ⟨hm, hdb⟩ := h
    subst hm hdb
    exact ⟨rfl, rfl⟩
  · rw [if_neg hfk] at h
    cases h

/-! ### Concrete example data for witnesses and counterexamples -/

/-- A brand context bound to the `gnymble` brand. -/
def gnymbleCtx : BrandContext := { brand_id := "gnymble", user_id := some "user-123" }

/-- A brand context bound to the `percymd` brand. -/
def percymdCtx : BrandContext := { brand_id := "percymd" }

/-- A customer of brand `gnymble`. -/
def custA : CustomerRow :=
  { id := "cust-1", brand_id := "gnymble", email := "a@b.com"
    stage := "lead", source := "website", is_active := true
    created_at := "2024-01-01T00:00:00Z", updated_at := "2024-01-01T00:00:00Z" }

/-- An active conversation of brand `gnymble`. -/
def convA : ConversationRow :=
  { id := "conv-1", brand_id := "gnymble", customer_id := "cust-1"
    customer_phone := "+15551234567", brand_phone := "+15557654321"
    status := "active", message_count := 3
    created_at := "2024-01-01T00:00:00Z", updated_at := "2024-01-01T00:00:00Z" }

/-- A store holding one `gnymble` customer and conversation. -/
def dbA : DB := { customers := [custA], conversations := [convA], messages := [] }

/-- An inbound message input for `conv-1`. -/
def msgInputA : CreateMessage :=
  { conversation_id := "conv-1", direction := "inbound", content := "hello" }

/-- The message row produced for `msgInputA` at `2024-01-02T00:00:00Z`. -/
def msgRowA : MessageRow :=
  { id := "msg-1", conversation_id := "conv-1", direction := "inbound"
    content := "hello", sent_at := "2024-01-02T00:00:00Z"
    created_at := "2024-01-02T00:00:00Z" }

/-! ### Claim theorems -/

/-- C2: a successful `ConversationOperations.addMessage` leaves every
conversation's `message_count` exactly as it was (the counter is never
incremented), even though the message row itself is durably appended. -/
theorem addMessage_leaves_message_count_unchanged
    (ctx : BrandContext) (db : DB) (data : CreateMessage) (now newId : String)
    (m : MessageRow) (db' : DB)
    (h : ConversationOperations.addMessage ctx db data now newId = .ok (m, db')) :
    db'.conversations.map ConversationRow.message_count
      = db.conversations.map ConversationRow.message_count
    ∧ db'.messages = db.messages ++ [m] := by
  obtain ⟨hm, hdb⟩ := addMessage_ok_inv ctx db data now newId m db' h
  subst hdb
  refine ⟨?_, rfl⟩
  rw [List.map_map]
  apply List.map_congr_left
  intro a _
  by_cases hc : (a.id == data.conversation_id && a.brand_id == ctx.brand_id) = true
  · simp [hc, Function.comp]
  · simp [hc, Function.comp]

/-- C2 witness: running `addMessage` on the concrete store `dbA`
appends the message while `message_count` stays 3. -/
theorem addMessage_leaves_message_count_unchanged_witness :
    ∃ m db', ConversationOperations.addMessage gnymbleCtx dbA msgInputA
        "2024-01-02T00:00:00Z" "msg-1" = .ok (m, db')
      ∧ db'.conversations.map ConversationRow.message_count
          = dbA.conversations.map ConversationRow.message_count
      ∧ db'.messages = dbA.messages ++ [m] := by
  refine ⟨msgRowA, _, rfl, ?_⟩
  exact (addMessage_leaves_message_count_unchanged gnymbleCtx dbA msgInputA
    "2024-01-02T00:00:00Z" "msg-1" msgRowA _ rfl).imp id (fun hmsg => hmsg)

/-- C4: a successful `addMessage` with direction `"inbound"` stamps the
brand-owned parent conversation's `last_inbound_at` and
`last_message_at` with the call time and leaves `last_outbound_at`
untouched; with direction `"outbound"`, the converse. -/
theorem addMessage_direction_timestamps
    (ctx : BrandContext) (db : DB) (data : CreateMessage) (now newId : String)
    (m : MessageRow) (db' : DB) (c : ConversationRow)
    (h : ConversationOperations.addMessage ctx db data now newId = .ok (m, db'))
    (hc : c ∈ db.conversations) (hid : c.id = data.conversation_id)
    (hb : c.brand_id = ctx.brand_id) :
    (data.direction = "inbound" →
      ∃ c', c' ∈ db'.conversations ∧ c'.id = c.id
        ∧ c'.last_inbound_at = some now ∧ c'.last_message_at = some now
        ∧ c'.last_outbound_at = c.last_outbound_at)
    ∧ (data.direction = "outbound" →
      ∃ c', c' ∈ db'.conversations ∧ c'.id = c.id
        ∧ c'.last_outbound_at = some now ∧ c'.last_message_at = some now
        ∧ c'.last_inbound_at = c.last_inbound_at) := by
  obtain ⟨hm, hdb⟩ := addMessage_ok_inv ctx db data now newId m db' h
  subst hdb
  have hcond : (c.id == data.conversation_id && c.brand_id == ctx.brand_id) = true := by
    simp [hid, hb]
  constructor
  · intro hdir
    refine ⟨_, List.mem_map_of_mem _ hc, ?_⟩
    simp [hcond, hdir]
  · intro hdir
    refine ⟨_, List.mem_map_of_mem _ hc, ?_⟩
    have : (data.direction == "inbound") = false := by simp [hdir]
    simp [hcond, this]

/-- C4 witness: the inbound case on the concrete store `dbA`. -/
theorem addMessage_direction_timestamps_witness :
    ∃ c', c' ∈ ({ dbA with
        messages := dbA.messages ++ [msgRowA]
        conversations := dbA.conversations.map (fun c =>
          if c.id == msgInputA.conversation_id && c.brand_id == gnymbleCtx.brand_id then
            { c with
              last_message_at := some "2024-01-02T00:00:00Z"
              updated_at := "2024-01-02T00:00:00Z"
              last_inbound_at := if msgInputA.direction == "inbound" then some "2024-01-02T00:00:00Z" else c.last_inbound_at
              last_outbound_at := if msgInputA.direction == "inbound" then c.last_outbound_at else some "2024-01-02T00:00:00Z" }
          else c) } : DB).conversations
      ∧ c'.id = convA.id ∧ c'.last_inbound_at = some "2024-01-02T00:00:00Z"
      ∧ c'.last_message_at = some "2024-01-02T00:00:00Z"
      ∧ c'.last_outbound_at = convA.last_outbound_at :=
  (addMessage_direction_timestamps gnymbleCtx dbA msgInputA
    "2024-01-02T00:00:00Z" "msg-1" msgRowA _ convA rfl
    (by decide) (by decide) (by decide)).1 (by decide)

/-- Truthiness of a JavaScript `a || b`. -/
lemma truthy_jsOr (a b : Option String) : truthy (jsOr a b) = (truthy a || truthy b) := by
  unfold jsOr
  by_cases h : truthy a = true
  · simp [h]
  · have h' : truthy a = false := by rwa [Bool.not_eq_true] at h
    simp [h']

/-- C7: client construction returns the process-wide singleton when one
exists; otherwise it builds the client from the explicit override or the
process environment, and it throws the configuration error exactly when
the url or the anon key is absent (JS-falsy) in both places. -/
theorem createSupabaseClient_singleton_and_config
    (singleton : Option SupabaseClient) (url anonKey : Option String) (env : Env) :
    (∀ c, singleton = some c →
      createSupabaseClient singleton url anonKey env = .ok (c, some c))
    ∧ (singleton = none →
      (createSupabaseClient none url anonKey env = .error "Missing Supabase configuration"
        ↔ ((truthy url = false ∧ truthy env.NEXT_PUBLIC_SUPABASE_URL = false)
           ∨ (truthy anonKey = false ∧ truthy env.NEXT_PUBLIC_SUPABASE_ANON_KEY = false))))
    ∧ (singleton = none →
      truthy (jsOr url env.NEXT_PUBLIC_SUPABASE_URL) = true →
      truthy (jsOr anonKey env.NEXT_PUBLIC_SUPABASE_ANON_KEY) = true →
      createSupabaseClient none url anonKey env
        = .ok ({ url := (jsOr url env.NEXT_PUBLIC_SUPABASE_URL).getD ""
                 anonKey := (jsOr anonKey env.NEXT_PUBLIC_SUPABASE_ANON_KEY).getD "" },
               some { url := (jsOr url env.NEXT_PUBLIC_SUPABASE_URL).getD ""
                      anonKey := (jsOr anonKey env.NEXT_PUBLIC_SUPABASE_ANON_KEY).getD "" })) := by
  refine ⟨?_, ?_, ?_⟩
  · intro c hc
    subst hc
    rfl
  · intro _
    unfold createSupabaseClient
    by_cases hcond : (!truthy (jsOr url env.NEXT_PUBLIC_SUPABASE_URL)
        || !truthy (jsOr anonKey env.NEXT_PUBLIC_SUPABASE_ANON_KEY)) = true
    · rw [if_pos hcond]
      simp only [truthy_jsOr] at hcond
      simp only [true_iff]
      revert hcond
      cases truthy url <;> cases truthy env.NEXT_PUBLIC_SUPABASE_URL <;>
        cases truthy anonKey <;> cases truthy env.NEXT_PUBLIC_SUPABASE_ANON_KEY <;> simp
    · rw [if_neg hcond]
      rw [Bool.not_eq_true] at hcond
      simp only [truthy_jsOr] at hcond
      constructor
      · intro hbad
        cases hbad
      · intro hrhs
        exfalso
        revert hcond
        rcases hrhs with ⟨h1, h2⟩ | ⟨h1, h2⟩ <;> simp [h1, h2]
  · intro _ hu hk
    unfold createSupabaseClient
    have hcond : (!truthy (jsOr url env.NEXT_PUBLIC_SUPABASE_URL)
        || !truthy (jsOr anonKey env.NEXT_PUBLIC_SUPABASE_ANON_KEY)) = false := by
      rw [hu, hk]
      rfl
    rw [if_neg (by rw [hcond]; exact Bool.false_ne_true)]

/-- C7 witness: no singleton, url from the override, key from the
environment: construction succeeds with that configuration. -/
theorem createSupabaseClient_singleton_and_config_witness :
    createSupabaseClient none (some "https://db.example") none
      { NEXT_PUBLIC_SUPABASE_ANON_KEY := some "anon-key" }
      = .ok ({ url := "https://db.example", anonKey := "anon-key" },
             some { url := "https://db.example", anonKey := "anon-key" }) := by
  exact (createSupabaseClient_singleton_and_config none (some "https://db.example") none
    { NEXT_PUBLIC_SUPABASE_ANON_KEY := some "anon-key" }).2.2 rfl (by decide) (by decide)

/-- C8: `addMessage` bound to brand `percymd`, on a message whose
conversation belongs to brand `gnymble`, durably inserts the message row
and reports success, while the brand-filtered stats update silently
matches zero conversations. -/
theorem addMessage_cross_brand_silent_success :
    percymdCtx.brand_id ≠ convA.brand_id
    ∧ ∃ m db', ConversationOperations.addMessage percymdCtx dbA msgInputA
        "2024-01-02T00:00:00Z" "msg-1" = .ok (m, db')
      ∧ db'.messages = dbA.messages ++ [m]
      ∧ db'.conversations = dbA.conversations := by
  exact ⟨by decide, msgRowA, { dbA with messages := [msgRowA] }, rfl, rfl, rfl⟩

/-- C10: the analytics aggregations guard their divisions: with zero
customers in stage `"lead"` the conversion rate is 0, and with zero
matching conversations the average message count is 0. -/
theorem analytics_guard_zero_denominators (ctx : BrandContext) (db : DB)
    (timeRange : Option (String × String)) :
    ((CustomerOperations.getAnalytics ctx db).byStage "lead" = 0 →
      (CustomerOperations.getAnalytics ctx db).conversionRate = 0)
    ∧ ((ConversationOperations.getAnalytics ctx db timeRange).total = 0 →
      (ConversationOperations.getAnalytics ctx db timeRange).avgMessagesPerConversation = 0) := by
  constructor
  · intro h
    simp only [CustomerOperations.getAnalytics] at h ⊢
    rw [h]
    simp
  · intro h
    simp only [ConversationOperations.getAnalytics] at h ⊢
    rw [h]
    simp

/-- C10 witness: the `percymd` client over a store holding only
`gnymble` rows sees zero leads and zero conversations, and both ratios
evaluate to 0. -/
theorem analytics_guard_zero_denominators_witness :
    (CustomerOperations.getAnalytics percymdCtx dbA).conversionRate = 0
    ∧ (ConversationOperations.getAnalytics percymdCtx dbA none).avgMessagesPerConversation = 0 :=
  ⟨(analytics_guard_zero_denominators percymdCtx dbA none).1 (by decide),
   (analytics_guard_zero_denominators percymdCtx dbA none).2 (by decide)⟩

/-- C5: for every customer stored under the bound brand (with the
schema's primary key holding), `progressStage(id, "churned")` succeeds,
clears `is_active` and stamps `churned_at` with the non-null call
time. -/
theorem progressStage_churned_clears_active
    (ctx : BrandContext) (db : DB) (now : String) (c : CustomerRow)
    (hpk : pairwiseB custPkDistinct db.customers = true)
    (hc : c ∈ db.customers) (hb : c.brand_id = ctx.brand_id) :
    ∃ c' db', CustomerOperations.progressStage ctx db c.id "churned" now none
        = .ok (c', db')
      ∧ c'.is_active = false ∧ c'.churned_at = some now := by
  have hfil : db.customers.filter (fun x => x.id == c.id && x.brand_id == ctx.brand_id) = [c] := by
    apply filter_eq_singleton_of_mem _ _ _ hc _ (cust_hit_le_one db ctx c.id hpk)
    simp [hb]
  refine ⟨applyUpdate c
      { stage := some "churned", churned_at := some now, is_active := some false } now,
    { db with customers := db.customers.map (fun x =>
        if x.id == c.id && x.brand_id == ctx.brand_id then
          applyUpdate x
            { stage := some "churned", churned_at := some now, is_active := some false } now
        else x) },
    ?_, rfl, rfl⟩
  unfold CustomerOperations.progressStage
  exact update_of_filter_eq ctx db c.id _ now c hfil

/-- C5 witness: churning the concrete `gnymble` customer `cust-1`. -/
theorem progressStage_churned_clears_active_witness :
    ∃ c' db', CustomerOperations.progressStage gnymbleCtx dbA custA.id "churned"
        "2024-02-01T00:00:00Z" none = .ok (c', db')
      ∧ c'.is_active = false ∧ c'.churned_at = some "2024-02-01T00:00:00Z" :=
  progressStage_churned_clears_active gnymbleCtx dbA "2024-02-01T00:00:00Z" custA
    (by decide) (by decide) (by decide)

/-- C3: under the schema's uniqueness constraints, each single-row
lookup (`getById`/`getByEmail`/`getByPhone` on customers,
`getById`/`getByPhones` on conversations) returns null exactly when no
row matches — the store's not-found signal — and re-throws a wrapped
error on every other store failure. -/
theorem lookups_null_iff_no_match (ctx : BrandContext) (db : DB)
    (hdb : dbConstraints db = true) :
    (∀ id : String,
      (CustomerOperations.getById ctx db id none = .ok none
        ↔ (BrandAwareSupabase.customers ctx db).filter (fun c => c.id == id) = [])
      ∧ ∀ msg, CustomerOperations.getById ctx db id (some msg)
          = .error ("Failed to get customer: " ++ msg))
    ∧ (∀ email : String,
      (CustomerOperations.getByEmail ctx db email none = .ok none
        ↔ (BrandAwareSupabase.customers ctx db).filter (fun c => c.email == email) = [])
      ∧ ∀ msg, CustomerOperations.getByEmail ctx db email (some msg)
          = .error ("Failed to get customer by email: " ++ msg))
    ∧ (∀ phone : String,
      (CustomerOperations.getByPhone ctx db phone none = .ok none
        ↔ (BrandAwareSupabase.customers ctx db).filter (fun c => c.phone == some phone) = [])
      ∧ ∀ msg, CustomerOperations.getByPhone ctx db phone (some msg)
          = .error ("Failed to get customer by phone: " ++ msg))
    ∧ (∀ id : String,
      (ConversationOperations.getById ctx db id none = .ok none
        ↔ (BrandAwareSupabase.conversations ctx db).filter (fun c => c.id == id) = [])
      ∧ ∀ msg, ConversationOperations.getById ctx db id (some msg)
          = .error ("Failed to get conversation: " ++ msg))
    ∧ (∀ customerPhone brandPhone : String,
      (ConversationOperations.getByPhones ctx db customerPhone brandPhone none = .ok none
        ↔ (BrandAwareSupabase.conversations ctx db).filter (fun c =>
            c.customer_phone == customerPhone && c.brand_phone == brandPhone
            && c.status == "active") = [])
      ∧ ∀ msg, ConversationOperations.getByPhones ctx db customerPhone brandPhone (some msg)
          = .error ("Failed to get conversation by phones: " ++ msg)) := by
  unfold dbConstraints at hdb
  rw [Bool.and_eq_true, Bool.and_eq_true, Bool.and_eq_true, Bool.and_eq_true] at hdb
  obtain ⟨⟨⟨⟨hpk, hemail⟩, hphone⟩, hcpk⟩, hcphones⟩ := hdb
  refine ⟨?_, ?_, ?_, ?_, ?_⟩
  · intro id
    refine ⟨?_, fun msg => rfl⟩
    unfold CustomerOperations.getById BrandAwareSupabase.customers
    rw [List.filter_filter]
    apply singleOrNull_null_iff
    apply pairwiseB_filter_length_le_one custPkDistinct _ _ db.customers hpk
    intro a b ha hb
    rw [Bool.and_eq_true, beq_iff_eq] at ha hb
    unfold custPkDistinct
    rw [ha.1, hb.1]
    simp
  · intro email
    refine ⟨?_, fun msg => rfl⟩
    unfold CustomerOperations.getByEmail BrandAwareSupabase.customers
    rw [List.filter_filter]
    apply singleOrNull_null_iff
    apply pairwiseB_filter_length_le_one custEmailDistinct _ _ db.customers hemail
    intro a b ha hb
    simp only [Bool.and_eq_true, beq_iff_eq] at ha hb
    unfold custEmailDistinct
    rw [ha.1, hb.1, ha.2, hb.2]
    simp
  · intro phone
    refine ⟨?_, fun msg => rfl⟩
    unfold CustomerOperations.getByPhone BrandAwareSupabase.customers
    rw [List.filter_filter]
    apply singleOrNull_null_iff
    apply pairwiseB_filter_length_le_one custPhoneDistinct _ _ db.customers hphone
    intro a b ha hb
    simp only [Bool.and_eq_true, beq_iff_eq] at ha hb
    unfold custPhoneDistinct
    rw [ha.1, hb.1, ha.2, hb.2]
    simp
  · intro id
    refine ⟨?_, fun msg => rfl⟩
    unfold ConversationOperations.getById BrandAwareSupabase.conversations
    rw [List.filter_filter]
    apply singleOrNull_null_iff
    apply pairwiseB_filter_length_le_one convPkDistinct _ _ db.conversations hcpk
    intro a b ha hb
    rw [Bool.and_eq_true, beq_iff_eq] at ha hb
    unfold convPkDistinct
    rw [ha.1, hb.1]
    simp
  · intro customerPhone brandPhone
    refine ⟨?_, fun msg => rfl⟩
    unfold ConversationOperations.getByPhones BrandAwareSupabase.conversations
    rw [List.filter_filter]
    apply singleOrNull_null_iff
    apply pairwiseB_filter_length_le_one convPhonesDistinct _ _ db.conversations hcphones
    intro a b ha hb
    simp only [Bool.and_eq_true, beq_iff_eq] at ha hb
    obtain ⟨⟨⟨ha1, ha2⟩, ha3⟩, ha4⟩ := ha
    obtain ⟨⟨⟨hb1, hb2⟩, hb3⟩, hb4⟩ := hb
    unfold convPhonesDistinct
    rw [ha1, hb1, ha2, hb2, ha4, hb4]
    simp

/-- C3 witness: on the concrete store, a missing id yields null and an
injected store failure yields the wrapped error. -/
theorem lookups_null_iff_no_match_witness :
    CustomerOperations.getById gnymbleCtx dbA "missing" none = .ok none
    ∧ CustomerOperations.getById gnymbleCtx dbA "cust-1" (some "network error")
        = .error "Failed to get customer: network error" := by
  have h := lookups_null_iff_no_match gnymbleCtx dbA (by decide)
  exact ⟨(h.1 "missing").1.mpr (by decide), (h.1 "cust-1").2 "network error"⟩

/-- `CustomerOperations.addTags` on a store whose id-and-brand filter
matches exactly one row: fetches that row, deduplicates the tag union in
process, and persists it via `update`. -/
lemma addTags_of_filter_eq (ctx : BrandContext) (db : DB) (id : String)
    (tags : List String) (now : String) (c : CustomerRow)
    (h : db.customers.filter (fun x => x.id == id && x.brand_id == ctx.brand_id) = [c]) :
    CustomerOperations.addTags ctx db id tags now
      = .ok (applyUpdate c { tags := some (jsSetDedup (c.tags.getD [] ++ tags)) } now,
             { db with customers := db.customers.map (fun x =>
                 if x.id == id && x.brand_id == ctx.brand_id then
                   applyUpdate x { tags := some (jsSetDedup (c.tags.getD [] ++ tags)) } now
                 else x) }) := by
  unfold CustomerOperations.addTags
  rw [getById_of_filter_eq ctx db id c h]
  exact update_of_filter_eq ctx db id _ now c h

/-- C6 (amended): for every customer stored under the bound brand,
`addTags(id, ["a","b"])` followed by `addTags(id, ["b","c"])` leaves the
tag set equal to the union of the customer's previous tags with
{"a","b","c"}, with no duplicates (so equal to {"a","b","c"} exactly
when the customer had no prior tags). -/
theorem addTags_twice_is_union_with_existing
    (ctx : BrandContext) (db : DB) (t1 t2 : String) (c : CustomerRow)
    (hpk : pairwiseB custPkDistinct db.customers = true)
    (hc : c ∈ db.customers) (hb : c.brand_id = ctx.brand_id) :
    ∃ c1 db1 c2 db2,
      CustomerOperations.addTags ctx db c.id ["a", "b"] t1 = .ok (c1, db1)
      ∧ CustomerOperations.addTags ctx db1 c.id ["b", "c"] t2 = .ok (c2, db2)
      ∧ (∀ t, t ∈ c2.tags.getD [] ↔ t ∈ c.tags.getD [] ∨ t = "a" ∨ t = "b" ∨ t = "c")
      ∧ (c2.tags.getD []).Nodup := by
  have hfil : db.customers.filter (fun x => x.id == c.id && x.brand_id == ctx.brand_id) = [c] := by
    apply filter_eq_singleton_of_mem _ _ _ hc _ (cust_hit_le_one db ctx c.id hpk)
    simp [hb]
  have h1 := addTags_of_filter_eq ctx db c.id ["a", "b"] t1 c hfil
  have hfil2 : ({ db with customers := db.customers.map (fun x =>
      if x.id == c.id && x.brand_id == ctx.brand_id then
        applyUpdate x { tags := some (jsSetDedup (c.tags.getD [] ++ ["a", "b"])) } t1
      else x) } : DB).customers.filter (fun x => x.id == c.id && x.brand_id == ctx.brand_id)
      = [applyUpdate c { tags := some (jsSetDedup (c.tags.getD [] ++ ["a", "b"])) } t1] := by
    show (db.customers.map _).filter _ = _
    rw [filter_map_ite (fun x => x.id == c.id && x.brand_id == ctx.brand_id)
        (fun x => applyUpdate x { tags := some (jsSetDedup (c.tags.getD [] ++ ["a", "b"])) } t1)
        (fun x => rfl), hfil]
    rfl
  have h2 := addTags_of_filter_eq ctx _ c.id ["b", "c"] t2
    (applyUpdate c { tags := some (jsSetDedup (c.tags.getD [] ++ ["a", "b"])) } t1) hfil2
  refine ⟨_, _, _, _, h1, h2, ?_, ?_⟩
  · intro t
    show t ∈ jsSetDedup (jsSetDedup (c.tags.getD [] ++ ["a", "b"]) ++ ["b", "c"]) ↔ _
    simp only [mem_jsSetDedup, List.mem_append, List.mem_cons, List.not_mem_nil, or_false]
    tauto
  · show (jsSetDedup (jsSetDedup (c.tags.getD [] ++ ["a", "b"]) ++ ["b", "c"])).Nodup
    exact jsSetDedup_nodup _

/-- C6 amended-claim witness: the two calls on the concrete customer
`cust-1` (no prior tags). -/
theorem addTags_twice_is_union_with_existing_witness :
    ∃ c1 db1 c2 db2,
      CustomerOperations.addTags gnymbleCtx dbA custA.id ["a", "b"] "t1" = .ok (c1, db1)
      ∧ CustomerOperations.addTags gnymbleCtx db1 custA.id ["b", "c"] "t2" = .ok (c2, db2)
      ∧ (∀ t, t ∈ c2.tags.getD [] ↔ t ∈ custA.tags.getD [] ∨ t = "a" ∨ t = "b" ∨ t = "c")
      ∧ (c2.tags.getD []).Nodup :=
  addTags_twice_is_union_with_existing gnymbleCtx dbA "t1" "t2" custA
    (by decide) (by decide) (by decide)

/-- A `gnymble` customer already carrying the tag `"z"`. -/
def custZ : CustomerRow := { custA with id := "cust-z", email := "z@b.com", tags := some ["z"] }

/-- A store holding only `custZ`. -/
def dbZ : DB := { customers := [custZ], conversations := [], messages := [] }

/-- C6 counterexample: on a customer whose tag set already holds `"z"`,
the two `addTags` calls leave a tag set that still contains `"z"`, so it
is not equal to {"a","b","c"}. -/
theorem addTags_twice_counterexample :
    ∃ c1 db1 c2 db2,
      CustomerOperations.addTags gnymbleCtx dbZ "cust-z" ["a", "b"] "t1" = .ok (c1, db1)
      ∧ CustomerOperations.addTags gnymbleCtx db1 "cust-z" ["b", "c"] "t2" = .ok (c2, db2)
      ∧ "z" ∈ c2.tags.getD []
      ∧ "z" ∉ (["a", "b", "c"] : List String) := by
  refine ⟨_, _, _, _, rfl, rfl, ?_, by decide⟩
  show "z" ∈ jsSetDedup (jsSetDedup (["z"] ++ ["a", "b"]) ++ ["b", "c"])
  simp [mem_jsSetDedup]

/-- C9: when the stored conversation for a phone pair is not active
(paused, completed or archived), `findOrCreate` does not return it — the
lookup filters on `status = "active"` — and the attempted create
collides with `conversations_brand_phones_unique` and throws. -/
theorem findOrCreate_nonactive_pair_throws
    (ctx : BrandContext) (db : DB) (conv : ConversationRow)
    (customerId now newId : String) (campaignData : Option CampaignData)
    (huniq : pairwiseB convPhonesDistinct db.conversations = true)
    (hmem : conv ∈ db.conversations) (hbrand : conv.brand_id = ctx.brand_id)
    (hstatus : conv.status = "paused" ∨ conv.status = "completed" ∨ conv.status = "archived") :
    ConversationOperations.findOrCreate ctx db customerId conv.customer_phone conv.brand_phone
        campaignData now newId
      = .error ("Failed to create conversation: "
          ++ "duplicate key value violates unique constraint \"conversations_brand_phones_unique\"") := by
  have hne : conv.status ≠ "active" := by
    rcases hstatus with h | h | h <;> simp [h]
  have hrows : db.conversations.filter (fun a =>
      (a.customer_phone == conv.customer_phone && a.brand_phone == conv.brand_phone
        && a.status == "active") && a.brand_id == ctx.brand_id) = [] := by
    rw [List.eq_nil_iff_forall_not_mem]
    intro r hr
    rw [List.mem_filter] at hr
    obtain ⟨hrmem, hrP⟩ := hr
    simp only [Bool.and_eq_true, beq_iff_eq] at hrP
    obtain ⟨⟨⟨hp1, hp2⟩, hst⟩, hbr⟩ := hrP
    have hfalse1 : convPhonesDistinct r conv = false := by
      unfold convPhonesDistinct
      rw [hp1, hp2, hbr, hbrand]
      simp
    have hfalse2 : convPhonesDistinct conv r = false := by
      unfold convPhonesDistinct
      rw [hp1, hp2, hbr, hbrand]
      simp
    have heq : r = conv :=
      pairwiseB_eq_of_mem convPhonesDistinct db.conversations huniq r conv hrmem hmem hfalse1 hfalse2
    rw [heq] at hst
    exact hne hst
  unfold ConversationOperations.findOrCreate ConversationOperations.getByPhones
    BrandAwareSupabase.conversations
  rw [List.filter_filter, hrows]
  show ConversationOperations.create ctx db _ now newId = _
  have hdup : db.conversations.any (fun c =>
      c.brand_id == ctx.brand_id && c.customer_phone == conv.customer_phone
      && c.brand_phone == conv.brand_phone) = true := by
    rw [List.any_eq_true]
    exact ⟨conv, hmem, by simp [hbrand]⟩
  simp only [ConversationOperations.create, insertConversation, hdup, if_true]

/-- C9 witness: the phone pair of the concrete paused conversation. -/
theorem findOrCreate_nonactive_pair_throws_witness :
    ConversationOperations.findOrCreate gnymbleCtx
        { customers := [custA], conversations := [{ convA with status := "paused" }], messages := [] }
        "cust-1" convA.customer_phone convA.brand_phone none "2024-03-01T00:00:00Z" "conv-2"
      = .error ("Failed to create conversation: "
          ++ "duplicate key value violates unique constraint \"conversations_brand_phones_unique\"") :=
  findOrCreate_nonactive_pair_throws gnymbleCtx
    { customers := [custA], conversations := [{ convA with status := "paused" }], messages := [] }
    { convA with status := "paused" } "cust-1" "2024-03-01T00:00:00Z" "conv-2" none
    (by decide) (by decide) (by decide) (Or.inl rfl)

/-- C1 (amended): brand isolation holds for the brand-partitioned
tables — every row reachable through the brand-aware client's filtered
starting points (`customers`, `conversations`), or returned by a
single-row lookup built on them, carries the bound brand, so a row of a
different brand is never returned.  `getMessages`, issued through `raw`
with no brand predicate, is the exception (see the counterexample). -/
theorem brand_filtered_reads_isolated
    (ctx : BrandContext) (db : DB) (b1 : String) (hne : b1 ≠ ctx.brand_id) :
    (∀ c ∈ BrandAwareSupabase.customers ctx db, c.brand_id ≠ b1)
    ∧ (∀ c ∈ BrandAwareSupabase.conversations ctx db, c.brand_id ≠ b1)
    ∧ (∀ id fault c, CustomerOperations.getById ctx db id fault = .ok (some c) → c.brand_id ≠ b1)
    ∧ (∀ email fault c, CustomerOperations.getByEmail ctx db email fault = .ok (some c) → c.brand_id ≠ b1)
    ∧ (∀ phone fault c, CustomerOperations.getByPhone ctx db phone fault = .ok (some c) → c.brand_id ≠ b1)
    ∧ (∀ id fault c, ConversationOperations.getById ctx db id fault = .ok (some c) → c.brand_id ≠ b1)
    ∧ (∀ p1 p2 fault c, ConversationOperations.getByPhones ctx db p1 p2 fault = .ok (some c) → c.brand_id ≠ b1) := by
  have hcust : ∀ c ∈ BrandAwareSupabase.customers ctx db, c.brand_id ≠ b1 := by
    intro c hcmem
    rw [BrandAwareSupabase.customers, List.mem_filter, beq_iff_eq] at hcmem
    intro hbad
    rw [hbad] at hcmem
    exact hne hcmem.2
  have hconv : ∀ c ∈ BrandAwareSupabase.conversations ctx db, c.brand_id ≠ b1 := by
    intro c hcmem
    rw [BrandAwareSupabase.conversations, List.mem_filter, beq_iff_eq] at hcmem
    intro hbad
    rw [hbad] at hcmem
    exact hne hcmem.2
  refine ⟨hcust, hconv, ?_, ?_, ?_, ?_, ?_⟩
  · intro id fault c h
    have := singleOrNull_mem _ fault _ c h
    exact hcust c (List.mem_filter.mp this).1
  · intro email fault c h
    have := singleOrNull_mem _ fault _ c h
    exact hcust c (List.mem_filter.mp this).1
  · intro phone fault c h
    have := singleOrNull_mem _ fault _ c h
    exact hcust c (List.mem_filter.mp this).1
  · intro id fault c h
    have := singleOrNull_mem _ fault _ c h
    exact hconv c (List.mem_filter.mp this).1
  · intro p1 p2 fault c h
    have := singleOrNull_mem _ fault _ c h
    exact hconv c (List.mem_filter.mp this).1

/-- C1 amended-claim witness: the `gnymble` customer row is not visible
through the `percymd` client's filtered collection. -/
theorem brand_filtered_reads_isolated_witness :
    custA.brand_id = "gnymble"
    ∧ custA ∉ BrandAwareSupabase.customers percymdCtx dbA :=
  ⟨rfl, fun hmem =>
    (brand_filtered_reads_isolated percymdCtx dbA "gnymble" (by decide)).1 custA hmem rfl⟩

/-- C1 counterexample: a message row created through the gnymble-bound
client (`addMessage`) is returned verbatim by `getMessages` issued
through the percymd-bound client — `getMessages` carries no brand
predicate. -/
theorem getMessages_cross_brand_counterexample :
    gnymbleCtx.brand_id ≠ percymdCtx.brand_id
    ∧ ∃ m db', ConversationOperations.addMessage gnymbleCtx dbA msgInputA
        "2024-01-02T00:00:00Z" "msg-1" = .ok (m, db')
      ∧ ConversationOperations.getMessages percymdCtx db' "conv-1" 50 = .ok [m] := by
  exact ⟨by decide, msgRowA, _, rfl, rfl⟩

end PercyDB
